import Mathlib

/-!
Shallow embedding of the `id-derive` crate: a set of derive macros that, for a
single-field tuple struct (a "newtype" wrapper), generate conversion, arithmetic
and display trait implementations.

The embedding has two layers:

* the *generator* layer (`operation.rs` and the dispatch layer of `lib.rs`):
  an input declaration (`DeriveInput`) is inspected and either a list of
  generated fragments, a diagnostic, or a panic is produced;
* the *generated-code* layer: the semantics of the trait implementations the
  macros emit for a wrapper over an inner type `α`.
-/

/-- A single-field wrapper struct `Name(α)`: the generated impls all read and
write the sole field `self.0`, modelled by `inner`. -/
structure Wrapper (α : Type) where
  inner : α
deriving DecidableEq, Repr

namespace Generated

/-- Embeds `impl Add for Name { fn add(self, rhs: Self) -> Self { Self(self.0 + rhs.0) } }`
(from `add_self` in operation.rs). -/
def add {α : Type} [Add α] (a rhs : Wrapper α) : Wrapper α :=
  ⟨a.inner + rhs.inner⟩

/-- Embeds `impl Add<ty> for Name { fn add(self, rhs: ty) -> Self { Self(self.0 + rhs) } }`
(from `add_inner`). -/
def addInner {α : Type} [Add α] (a : Wrapper α) (rhs : α) : Wrapper α :=
  ⟨a.inner + rhs⟩

/-- Embeds `impl AddAssign for Name { fn add_assign(&mut self, rhs: Self) { self.0 += rhs.0 } }`
(from `add_assign_self`). On the primitive integer inner types the crate targets,
in Rust, `x += y` on the inner value equals `x = x + y`. The mutation is modelled by
returning the new state of `self`. -/
def addAssign {α : Type} [Add α] (a rhs : Wrapper α) : Wrapper α :=
  ⟨a.inner + rhs.inner⟩

/-- Embeds `impl AddAssign<ty> for Name { fn add_assign(&mut self, rhs: ty) { self.0 += rhs } }`
(from `add_assign_inner`). -/
def addAssignInner {α : Type} [Add α] (a : Wrapper α) (rhs : α) : Wrapper α :=
  ⟨a.inner + rhs⟩

/-- Embeds `impl Sub for Name { ... Self(self.0 - rhs.0) }` (from `sub_self`). -/
def sub {α : Type} [Sub α] (a rhs : Wrapper α) : Wrapper α :=
  ⟨a.inner - rhs.inner⟩

/-- Embeds `impl Sub<ty> for Name { ... Self(self.0 - rhs) }` (from `sub_inner`). -/
def subInner {α : Type} [Sub α] (a : Wrapper α) (rhs : α) : Wrapper α :=
  ⟨a.inner - rhs⟩

/-- Embeds `impl SubAssign for Name { ... self.0 -= rhs.0 }` (from `sub_assign_self`). -/
def subAssign {α : Type} [Sub α] (a rhs : Wrapper α) : Wrapper α :=
  ⟨a.inner - rhs.inner⟩

/-- Embeds `impl SubAssign<ty> for Name { ... self.0 -= rhs }` (from `sub_assign_inner`). -/
def subAssignInner {α : Type} [Sub α] (a : Wrapper α) (rhs : α) : Wrapper α :=
  ⟨a.inner - rhs⟩

/-- Embeds `impl Mul for Name { ... Self(self.0 * rhs.0) }` (from `mul_self`). -/
def mul {α : Type} [Mul α] (a rhs : Wrapper α) : Wrapper α :=
  ⟨a.inner * rhs.inner⟩

/-- Embeds `impl Mul<ty> for Name { ... Self(self.0 * rhs) }` (from `mul_inner`). -/
def mulInner {α : Type} [Mul α] (a : Wrapper α) (rhs : α) : Wrapper α :=
  ⟨a.inner * rhs⟩

/-- Embeds `impl MulAssign for Name { ... self.0 *= rhs.0 }` (from `mul_assign_self`). -/
def mulAssign {α : Type} [Mul α] (a rhs : Wrapper α) : Wrapper α :=
  ⟨a.inner * rhs.inner⟩

/-- Embeds `impl MulAssign<ty> for Name { ... self.0 *= rhs }` (from `mul_assign_inner`). -/
def mulAssignInner {α : Type} [Mul α] (a : Wrapper α) (rhs : α) : Wrapper α :=
  ⟨a.inner * rhs⟩

/-- Embeds `impl Div for Name { ... Self(self.0 / rhs.0) }` (from `div_self`). -/
def div {α : Type} [Div α] (a rhs : Wrapper α) : Wrapper α :=
  ⟨a.inner / rhs.inner⟩

/-- Embeds `impl Div<ty> for Name { ... Self(self.0 / rhs) }` (from `div_inner`). -/
def divInner {α : Type} [Div α] (a : Wrapper α) (rhs : α) : Wrapper α :=
  ⟨a.inner / rhs⟩

/-- Embeds `impl DivAssign for Name { ... self.0 /= rhs.0 }` (from `div_assign_self`). -/
def divAssign {α : Type} [Div α] (a rhs : Wrapper α) : Wrapper α :=
  ⟨a.inner / rhs.inner⟩

/-- Embeds `impl DivAssign<ty> for Name { ... self.0 /= rhs }` (from `div_assign_inner`). -/
def divAssignInner {α : Type} [Div α] (a : Wrapper α) (rhs : α) : Wrapper α :=
  ⟨a.inner / rhs⟩

/-- Embeds `impl From<ty> for Name { fn from(inner: ty) -> Self { Self(inner) } }`
(from `from_inner`): conversion-in. -/
def fromInner {α : Type} (x : α) : Wrapper α :=
  ⟨x⟩

/-- Embeds `impl From<Name> for ty { fn from(inner: Name) -> Self { inner.0 } }`
(from `into_inner`): conversion-out. -/
def intoInner {α : Type} (w : Wrapper α) : α :=
  w.inner

end Generated

/-- Models the decimal rendering of an unsigned
integer (the rendering the inner type itself uses for `Display`). -/
def innerDecimal (n : Nat) : String :=
  Nat.repr n

/-- Models the binary rendering of an unsigned integer
(the rendering the inner type itself uses for `Binary`): the binary digits, preceded by `0b` exactly
when the alternate flag is set. -/
def innerBinary (alternate : Bool) (n : Nat) : String :=
  (if alternate then "0b" else "") ++ String.mk (Nat.toDigits 2 n)

namespace Generated

/-- Embeds `impl Display for Name { fn fmt ... { write!(f, "{}", self.0) } }`
(from `display` in operation.rs): delegates to the rendering of the inner value. -/
def displayFmt (w : Wrapper Nat) : String :=
  innerDecimal w.inner

/-- Embeds `impl Binary for Name { fn fmt ... { if f.alternate() { write!(f, "{:#b}", self.0) }
else { write!(f, "{:b}", self.0) } } }` (from `display`). -/
def binaryFmt (alternate : Bool) (w : Wrapper Nat) : String :=
  if alternate then innerBinary true w.inner else innerBinary false w.inner

end Generated

/-!
Generator layer: the syntax-tree inspection of `operation.rs` and the
dispatch / error handling of `lib.rs`. Field types and identifiers are
modelled as strings; an unnamed field list is the list of its field types.
-/

/-- Embeds `syn::Fields` as matched by `single_derive`: an unnamed field
list (carrying the field types), a unit struct, or the wildcard arm
(named fields). -/
inductive StructFields where
  | unnamed (tys : List String)
  | unit
  | named
deriving DecidableEq, Repr

/-- Embeds `syn::Data`: struct, enum or union. -/
inductive DeclData where
  | struct (fields : StructFields)
  | enum
  | union
deriving DecidableEq, Repr

/-- Embeds `syn::DeriveInput`: the name and data of the annotated declaration. -/
structure DeriveInput where
  name : String
  data : DeclData
deriving DecidableEq, Repr

/-- A unit of generated output: one trait-implementation fragment (carrying
the wrapper name, and the inner type where the generated impl mentions it),
or a `compile_error!` invocation. A Rust `TokenStream` of generated code is a
`List Frag`. -/
inductive Frag where
  | implFromInner (name ty : String)
  | implIntoInner (name ty : String)
  | implAddSelf (name : String)
  | implAddInner (name ty : String)
  | implAddAssignSelf (name : String)
  | implAddAssignInner (name ty : String)
  | implSubSelf (name : String)
  | implSubInner (name ty : String)
  | implSubAssignSelf (name : String)
  | implSubAssignInner (name ty : String)
  | implMulSelf (name : String)
  | implMulInner (name ty : String)
  | implMulAssignSelf (name : String)
  | implMulAssignInner (name ty : String)
  | implDivSelf (name : String)
  | implDivInner (name ty : String)
  | implDivAssignSelf (name : String)
  | implDivAssignInner (name ty : String)
  | implDisplay (name : String)
  | compileError (msg : String)
deriving DecidableEq, Repr

/-- True exactly on trait-implementation fragments (everything except a
`compile_error!` diagnostic). -/
def Frag.isImpl : Frag → Bool
  | .compileError _ => false
  | _ => true

/-- Embeds `syn::Error`: a diagnostic message attached to the declaration. -/
structure SynError where
  msg : String
deriving DecidableEq, Repr

/-- Outcome of one generator function (`syn::Result<TokenStream>`, plus the
possibility of a panic from `.unwrap()`). -/
inductive GenOutcome where
  | ok (ts : List Frag)
  | err (e : SynError)
  | panicked
deriving DecidableEq, Repr

/-- Output of a derive-macro entry point: a token stream spliced into the
compilation unit, or an aborted (panicked) macro invocation. -/
inductive MacroOutput where
  | out (ts : List Frag)
  | panicked
deriving DecidableEq, Repr

/-- Embeds `implement_operation` (operation.rs lines 5-18): if the unnamed
field list has more than one field, emit a `compile_error!` fragment;
otherwise take the first field (`.first().unwrap()` - `none` models the
panic on an empty list) and apply the fragment builder to its type. -/
def implement_operation (name : String) (tys : List String)
    (operation : String → String → List Frag) : Option (List Frag) :=
  if tys.length > 1 then
    some [Frag.compileError "Only single-field structs supported at the moment"]
  else
    match tys with
    | [] => none
    | ty :: _ => some (operation name ty)

/-- Embeds `single_derive` (operation.rs lines 20-53): dispatch on the shape
of the declaration, producing a fragment list for an unnamed-field struct and
a `syn::Error` for unit structs, named-field structs, enums and unions. -/
def single_derive (derive_name : String) (input : DeriveInput)
    (operation : String → String → List Frag) : GenOutcome :=
  match input.data with
  | .struct (.unnamed tys) =>
    match implement_operation input.name tys operation with
    | some ts => .ok ts
    | none => .panicked
  | .struct .unit =>
    .err ⟨s!"Unit struct cannot derive {derive_name}"⟩
  | .struct .named =>
    .err ⟨s!"Deriving from {derive_name} by a struct with named fields is not yet implemented"⟩
  | .enum =>
    .err ⟨s!"Cannot derive {derive_name} for enum, expected struct."⟩
  | .union =>
    .err ⟨s!"Cannot derive {derive_name} for union, expected struct."⟩

namespace operation

/-- Embeds `operation::into_inner`. -/
def into_inner (derive_name : String) (input : DeriveInput) : GenOutcome :=
  single_derive derive_name input (fun name ty => [Frag.implIntoInner name ty])

/-- Embeds `operation::from_inner`. -/
def from_inner (derive_name : String) (input : DeriveInput) : GenOutcome :=
  single_derive derive_name input (fun name ty => [Frag.implFromInner name ty])

/-- Embeds `operation::mul_self` (the closure ignores the field type). -/
def mul_self (derive_name : String) (input : DeriveInput) : GenOutcome :=
  single_derive derive_name input (fun name _ => [Frag.implMulSelf name])

/-- Embeds `operation::mul_inner`. -/
def mul_inner (derive_name : String) (input : DeriveInput) : GenOutcome :=
  single_derive derive_name input (fun name ty => [Frag.implMulInner name ty])

/-- Embeds `operation::mul_assign_self`. -/
def mul_assign_self (derive_name : String) (input : DeriveInput) : GenOutcome :=
  single_derive derive_name input (fun name _ => [Frag.implMulAssignSelf name])

/-- Embeds `operation::mul_assign_inner`. -/
def mul_assign_inner (derive_name : String) (input : DeriveInput) : GenOutcome :=
  single_derive derive_name input (fun name ty => [Frag.implMulAssignInner name ty])

/-- Embeds `operation::div_self`. -/
def div_self (derive_name : String) (input : DeriveInput) : GenOutcome :=
  single_derive derive_name input (fun name _ => [Frag.implDivSelf name])

/-- Embeds `operation::div_inner`. -/
def div_inner (derive_name : String) (input : DeriveInput) : GenOutcome :=
  single_derive derive_name input (fun name ty => [Frag.implDivInner name ty])

/-- Embeds `operation::div_assign_self`. -/
def div_assign_self (derive_name : String) (input : DeriveInput) : GenOutcome :=
  single_derive derive_name input (fun name _ => [Frag.implDivAssignSelf name])

/-- Embeds `operation::div_assign_inner`. -/
def div_assign_inner (derive_name : String) (input : DeriveInput) : GenOutcome :=
  single_derive derive_name input (fun name ty => [Frag.implDivAssignInner name ty])

/-- Embeds `operation::add_self`. -/
def add_self (derive_name : String) (input : DeriveInput) : GenOutcome :=
  single_derive derive_name input (fun name _ => [Frag.implAddSelf name])

/-- Embeds `operation::add_inner`. -/
def add_inner (derive_name : String) (input : DeriveInput) : GenOutcome :=
  single_derive derive_name input (fun name ty => [Frag.implAddInner name ty])

/-- Embeds `operation::add_assign_self`. -/
def add_assign_self (derive_name : String) (input : DeriveInput) : GenOutcome :=
  single_derive derive_name input (fun name _ => [Frag.implAddAssignSelf name])

/-- Embeds `operation::add_assign_inner`. -/
def add_assign_inner (derive_name : String) (input : DeriveInput) : GenOutcome :=
  single_derive derive_name input (fun name ty => [Frag.implAddAssignInner name ty])

/-- Embeds `operation::sub_self`. -/
def sub_self (derive_name : String) (input : DeriveInput) : GenOutcome :=
  single_derive derive_name input (fun name _ => [Frag.implSubSelf name])

/-- Embeds `operation::sub_inner`. -/
def sub_inner (derive_name : String) (input : DeriveInput) : GenOutcome :=
  single_derive derive_name input (fun name ty => [Frag.implSubInner name ty])

/-- Embeds `operation::sub_assign_self`. -/
def sub_assign_self (derive_name : String) (input : DeriveInput) : GenOutcome :=
  single_derive derive_name input (fun name _ => [Frag.implSubAssignSelf name])

/-- Embeds `operation::sub_assign_inner`. -/
def sub_assign_inner (derive_name : String) (input : DeriveInput) : GenOutcome :=
  single_derive derive_name input (fun name ty => [Frag.implSubAssignInner name ty])

/-- Embeds `operation::display` (emits the Display and Binary impls as one
fragment). -/
def display (derive_name : String) (input : DeriveInput) : GenOutcome :=
  single_derive derive_name input (fun name _ => [Frag.implDisplay name])

end operation

/-- Embeds the single-expression arm of the `handle!` macro (lib.rs lines
89-95): an `Ok` token stream is the macro output; an `Err` is turned into its
`compile_error!` token stream; a panic aborts the invocation. -/
def handle_one : GenOutcome → MacroOutput
  | .ok ts => .out ts
  | .err e => .out [Frag.compileError e.msg]
  | .panicked => .panicked

/-- Helper for the multi-expression arm of `handle!`: the results are
inspected in order, `Ok` token streams are accumulated by `tokens.extend`,
and the first `Err` makes the whole invocation return just the corresponding
`compile_error!` stream, discarding the accumulator; a panic aborts. -/
def handle_many_aux (acc : List Frag) : List GenOutcome → MacroOutput
  | [] => .out acc
  | .ok ts :: rest => handle_many_aux (acc ++ ts) rest
  | .err e :: _ => .out [Frag.compileError e.msg]
  | .panicked :: _ => .panicked

/-- Embeds the multi-expression arm of the `handle!` macro (lib.rs lines
96-109). -/
def handle_many (rs : List GenOutcome) : MacroOutput :=
  handle_many_aux [] rs

/-- The named directives exported by lib.rs (one per `proc_macro_derive`). -/
inductive Directive where
  | Display
  | Add
  | AddInner
  | AddAssign
  | AddAssignInner
  | Sub
  | SubInner
  | SubAssign
  | SubAssignInner
  | Mul
  | MulInner
  | MulAssign
  | MulAssignInner
  | Div
  | DivInner
  | DivAssign
  | DivAssignInner
  | FromInner
  | IntoInner
  | Convert
  | Id
deriving DecidableEq, Repr

/-- The name of a directive as the consumer writes it in `#[derive(...)]`. -/
def directive_name : Directive → String
  | .Display => "Display"
  | .Add => "Add"
  | .AddInner => "AddInner"
  | .AddAssign => "AddAssign"
  | .AddAssignInner => "AddAssignInner"
  | .Sub => "Sub"
  | .SubInner => "SubInner"
  | .SubAssign => "SubAssign"
  | .SubAssignInner => "SubAssignInner"
  | .Mul => "Mul"
  | .MulInner => "MulInner"
  | .MulAssign => "MulAssign"
  | .MulAssignInner => "MulAssignInner"
  | .Div => "Div"
  | .DivInner => "DivInner"
  | .DivAssign => "DivAssign"
  | .DivAssignInner => "DivAssignInner"
  | .FromInner => "FromInner"
  | .IntoInner => "IntoInner"
  | .Convert => "Convert"
  | .Id => "Id"

/-- Embeds the derive-macro entry points of lib.rs (lines 112-280): each
directive calls its generator with the literal `derive_name` string that
appears in the source. Note the source passes "Add", "AddInner", "Sub" and
"SubInner" for the `AddAssign`, `AddAssignInner`, `SubAssign` and `SubAssignInner`
directives; `Convert` and `Id` use the multi-expression `handle!` arm. -/
def run_directive : Directive → DeriveInput → MacroOutput
  | .Display, input => handle_one (operation.display "Display" input)
  | .Add, input => handle_one (operation.add_self "Add" input)
  | .AddInner, input => handle_one (operation.add_inner "AddInner" input)
  | .AddAssign, input => handle_one (operation.add_assign_self "Add" input)
  | .AddAssignInner, input => handle_one (operation.add_assign_inner "AddInner" input)
  | .Sub, input => handle_one (operation.sub_self "Sub" input)
  | .SubInner, input => handle_one (operation.sub_inner "SubInner" input)
  | .SubAssign, input => handle_one (operation.sub_assign_self "Sub" input)
  | .SubAssignInner, input => handle_one (operation.sub_assign_inner "SubInner" input)
  | .Mul, input => handle_one (operation.mul_self "Mul" input)
  | .MulInner, input => handle_one (operation.mul_inner "MulInner" input)
  | .MulAssign, input => handle_one (operation.mul_assign_self "MulAssign" input)
  | .MulAssignInner, input => handle_one (operation.mul_assign_inner "MulAssignInner" input)
  | .Div, input => handle_one (operation.div_self "Div" input)
  | .DivInner, input => handle_one (operation.div_inner "DivInner" input)
  | .DivAssign, input => handle_one (operation.div_assign_self "DivAssign" input)
  | .DivAssignInner, input => handle_one (operation.div_assign_inner "DivAssignInner" input)
  | .FromInner, input => handle_one (operation.from_inner "FromInner" input)
  | .IntoInner, input => handle_one (operation.into_inner "IntoInner" input)
  | .Convert, input =>
    handle_many [operation.from_inner "Convert" input, operation.into_inner "Convert" input]
  | .Id, input =>
    handle_many
      [operation.from_inner "Id" input,
       operation.into_inner "Id" input,
       operation.add_self "Id" input,
       operation.add_inner "Id" input,
       operation.add_assign_self "Id" input,
       operation.add_assign_inner "Id" input,
       operation.sub_self "Id" input,
       operation.sub_inner "Id" input,
       operation.sub_assign_self "Id" input,
       operation.sub_assign_inner "Id" input,
       operation.mul_self "Id" input,
       operation.mul_inner "Id" input,
       operation.mul_assign_self "Id" input,
       operation.mul_assign_inner "Id" input,
       operation.div_self "Id" input,
       operation.div_inner "Id" input,
       operation.div_assign_self "Id" input,
       operation.div_assign_inner "Id" input,
       operation.display "Id" input]

/-- The fragments of a macro output (empty for an aborted invocation). -/
def out_frags : MacroOutput → List Frag
  | .out ts => ts
  | .panicked => []

/-- Decides whether `pat` occurs as a prefix of `l`. -/
def charsPrefixEq : List Char → List Char → Bool
  | [], _ => true
  | _ :: _, [] => false
  | a :: as, b :: bs => a == b && charsPrefixEq as bs

/-- Decides whether `pat` occurs as a contiguous sublist of the second list. -/
def charsContains (pat : List Char) : List Char → Bool
  | [] => charsPrefixEq pat []
  | c :: cs => charsPrefixEq pat (c :: cs) || charsContains pat cs

/-- Decides whether `pat` occurs as a substring of `s`. -/
def strContains (s pat : String) : Bool :=
  charsContains pat.data s.data

/-!
Theorems for the specification claims.
-/

/-- Helper: on an unnamed-field struct with more than one field, every
generator returns an `Ok` stream holding only the multi-field
`compile_error!` fragment. -/
theorem single_derive_multi_field (dn name : String) (tys : List String)
    (op : String → String → List Frag) (h : tys.length > 1) :
    single_derive dn ⟨name, .struct (.unnamed tys)⟩ op =
      .ok [Frag.compileError "Only single-field structs supported at the moment"] := by
  simp [single_derive, implement_operation, h]

/-- C1: for every single-field wrapper and every arithmetic family
(add, sub, mul, div), the generated self-operator satisfies
wrapper(a) op wrapper(b) = wrapper(a op b) and the generated inner-operator
satisfies wrapper(a) op b = wrapper(a op b), where op on the right is the
inner type arithmetic. -/
theorem C1_arithmetic_delegates {α : Type} [Add α] [Sub α] [Mul α] [Div α]
    (a b : α) :
    Generated.add (Wrapper.mk a) (Wrapper.mk b) = Wrapper.mk (a + b) ∧
    Generated.addInner (Wrapper.mk a) b = Wrapper.mk (a + b) ∧
    Generated.sub (Wrapper.mk a) (Wrapper.mk b) = Wrapper.mk (a - b) ∧
    Generated.subInner (Wrapper.mk a) b = Wrapper.mk (a - b) ∧
    Generated.mul (Wrapper.mk a) (Wrapper.mk b) = Wrapper.mk (a * b) ∧
    Generated.mulInner (Wrapper.mk a) b = Wrapper.mk (a * b) ∧
    Generated.div (Wrapper.mk a) (Wrapper.mk b) = Wrapper.mk (a / b) ∧
    Generated.divInner (Wrapper.mk a) b = Wrapper.mk (a / b) :=
  ⟨rfl, rfl, rfl, rfl, rfl, rfl, rfl, rfl⟩

/-- Witness for C1 at the inner type Nat with a = 12, b = 3. -/
theorem C1_arithmetic_delegates_witness :
    Generated.add (Wrapper.mk (12 : Nat)) (Wrapper.mk 3) = Wrapper.mk (12 + 3) ∧
    Generated.addInner (Wrapper.mk (12 : Nat)) 3 = Wrapper.mk (12 + 3) ∧
    Generated.sub (Wrapper.mk (12 : Nat)) (Wrapper.mk 3) = Wrapper.mk (12 - 3) ∧
    Generated.subInner (Wrapper.mk (12 : Nat)) 3 = Wrapper.mk (12 - 3) ∧
    Generated.mul (Wrapper.mk (12 : Nat)) (Wrapper.mk 3) = Wrapper.mk (12 * 3) ∧
    Generated.mulInner (Wrapper.mk (12 : Nat)) 3 = Wrapper.mk (12 * 3) ∧
    Generated.div (Wrapper.mk (12 : Nat)) (Wrapper.mk 3) = Wrapper.mk (12 / 3) ∧
    Generated.divInner (Wrapper.mk (12 : Nat)) 3 = Wrapper.mk (12 / 3) :=
  C1_arithmetic_delegates 12 3

/-- C2: for every inner value x, the generated conversion-in followed by the
generated conversion-out returns x unchanged. -/
theorem C2_conversion_roundtrip {α : Type} (x : α) :
    Generated.intoInner (Generated.fromInner x) = x :=
  rfl

/-- Witness for C2 at x = 7. -/
theorem C2_conversion_roundtrip_witness :
    Generated.intoInner (Generated.fromInner (7 : Nat)) = 7 :=
  C2_conversion_roundtrip 7

/-- C3: for every arithmetic family and every pair of operands, the generated
mutating variant leaves the wrapper in exactly the state produced by the
value-returning variant applied to the same operands. -/
theorem C3_assign_matches_value {α : Type} [Add α] [Sub α] [Mul α] [Div α]
    (a rhs : Wrapper α) (x : α) :
    Generated.addAssign a rhs = Generated.add a rhs ∧
    Generated.addAssignInner a x = Generated.addInner a x ∧
    Generated.subAssign a rhs = Generated.sub a rhs ∧
    Generated.subAssignInner a x = Generated.subInner a x ∧
    Generated.mulAssign a rhs = Generated.mul a rhs ∧
    Generated.mulAssignInner a x = Generated.mulInner a x ∧
    Generated.divAssign a rhs = Generated.div a rhs ∧
    Generated.divAssignInner a x = Generated.divInner a x :=
  ⟨rfl, rfl, rfl, rfl, rfl, rfl, rfl, rfl⟩

/-- Witness for C3 at the inner type Nat with operands 10, 4 and 2. -/
theorem C3_assign_matches_value_witness :
    Generated.addAssign (Wrapper.mk (10 : Nat)) (Wrapper.mk 4) =
      Generated.add (Wrapper.mk 10) (Wrapper.mk 4) ∧
    Generated.addAssignInner (Wrapper.mk (10 : Nat)) 2 =
      Generated.addInner (Wrapper.mk 10) 2 ∧
    Generated.subAssign (Wrapper.mk (10 : Nat)) (Wrapper.mk 4) =
      Generated.sub (Wrapper.mk 10) (Wrapper.mk 4) ∧
    Generated.subAssignInner (Wrapper.mk (10 : Nat)) 2 =
      Generated.subInner (Wrapper.mk 10) 2 ∧
    Generated.mulAssign (Wrapper.mk (10 : Nat)) (Wrapper.mk 4) =
      Generated.mul (Wrapper.mk 10) (Wrapper.mk 4) ∧
    Generated.mulAssignInner (Wrapper.mk (10 : Nat)) 2 =
      Generated.mulInner (Wrapper.mk 10) 2 ∧
    Generated.divAssign (Wrapper.mk (10 : Nat)) (Wrapper.mk 4) =
      Generated.div (Wrapper.mk 10) (Wrapper.mk 4) ∧
    Generated.divAssignInner (Wrapper.mk (10 : Nat)) 2 =
      Generated.divInner (Wrapper.mk 10) 2 :=
  C3_assign_matches_value (Wrapper.mk 10) (Wrapper.mk 4) 2

/-- C4: the generated Display formatting of wrapper(x) equals the inner type
decimal rendering of x, and the generated Binary formatting equals the inner
type binary rendering of x, with and without the alternate (0b-prefixed)
flag. -/
theorem C4_display_delegates (alternate : Bool) (x : Nat) :
    Generated.displayFmt (Wrapper.mk x) = innerDecimal x ∧
    Generated.binaryFmt alternate (Wrapper.mk x) = innerBinary alternate x := by
  cases alternate <;> exact ⟨rfl, rfl⟩

/-- Witness for C4 at x = 12 with the alternate flag set. -/
theorem C4_display_delegates_witness :
    Generated.displayFmt (Wrapper.mk 12) = innerDecimal 12 ∧
    Generated.binaryFmt true (Wrapper.mk 12) = innerBinary true 12 :=
  C4_display_delegates true 12

/-- C5 divergence witness: on a tuple struct with zero unnamed fields, every
directive panics (the source unwraps the first element of the empty field
list), instead of producing the validation diagnostic the specification
requires. -/
theorem C5_zero_field_tuple_panics (d : Directive) (name : String) :
    run_directive d ⟨name, .struct (.unnamed [])⟩ = .panicked := by
  cases d <;> rfl

/-- Witness for C5 at the FromInner directive on a struct named S. -/
theorem C5_zero_field_tuple_panics_witness :
    run_directive .FromInner ⟨"S", .struct (.unnamed [])⟩ = .panicked :=
  C5_zero_field_tuple_panics .FromInner "S"

/-- C6: for every struct declaration with more than one unnamed field and
every directive, the output is a token stream made of one or more copies of
the diagnostic stating that only single-field structs are supported, and no
trait-implementation fragment. -/
theorem C6_multi_field_diagnostic (d : Directive) (name : String)
    (tys : List String) (h : tys.length > 1) :
    ∃ k, run_directive d ⟨name, .struct (.unnamed tys)⟩ =
      .out (List.replicate (k + 1)
        (Frag.compileError "Only single-field structs supported at the moment")) := by
  have hs : ∀ dn op, single_derive dn ⟨name, .struct (.unnamed tys)⟩ op =
      .ok [Frag.compileError "Only single-field structs supported at the moment"] :=
    fun dn op => single_derive_multi_field dn name tys op h
  cases d <;>
    simp [run_directive, handle_one, handle_many, handle_many_aux,
      operation.display, operation.add_self, operation.add_inner,
      operation.add_assign_self, operation.add_assign_inner,
      operation.sub_self, operation.sub_inner,
      operation.sub_assign_self, operation.sub_assign_inner,
      operation.mul_self, operation.mul_inner,
      operation.mul_assign_self, operation.mul_assign_inner,
      operation.div_self, operation.div_inner,
      operation.div_assign_self, operation.div_assign_inner,
      operation.from_inner, operation.into_inner, hs] <;>
    first
      | exact ⟨0, rfl⟩
      | exact ⟨1, rfl⟩
      | exact ⟨18, rfl⟩

/-- Witness for C6: the Add directive on a two-field tuple struct. -/
theorem C6_multi_field_diagnostic_witness :
    (["u32", "u64"] : List String).length > 1 ∧
    ∃ k, run_directive .Add ⟨"S", .struct (.unnamed ["u32", "u64"])⟩ =
      .out (List.replicate (k + 1)
        (Frag.compileError "Only single-field structs supported at the moment")) :=
  ⟨by decide, C6_multi_field_diagnostic .Add "S" ["u32", "u64"] (by decide)⟩

/-- The derive-name string the lib.rs entry point of a directive passes to
its generator, and which therefore appears in its diagnostics. It equals the
directive name except for the four assign directives of the add and sub
families, whose entry points pass the value-returning name instead. -/
def passed_name : Directive → String
  | .AddAssign => "Add"
  | .AddAssignInner => "AddInner"
  | .SubAssign => "Sub"
  | .SubAssignInner => "SubInner"
  | d => directive_name d

/-- C7 counterexample: the multi-field diagnostic produced under the Display
directive does not mention "Display", and the unit-struct diagnostic produced
under the AddAssign directive says "Unit struct cannot derive Add", which does
not mention "AddAssign"; so not every diagnostic names the offending
directive. -/
theorem C7_counterexample :
    (run_directive .Display ⟨"S", .struct (.unnamed ["u32", "u64"])⟩ =
      .out [Frag.compileError "Only single-field structs supported at the moment"] ∧
     strContains "Only single-field structs supported at the moment"
       (directive_name .Display) = false) ∧
    (run_directive .AddAssign ⟨"S", .struct .unit⟩ =
      .out [Frag.compileError "Unit struct cannot derive Add"] ∧
     strContains "Unit struct cannot derive Add" (directive_name .AddAssign) = false) :=
  ⟨⟨rfl, by decide⟩, ⟨rfl, by decide⟩⟩

/-- C7 amended: for unit structs, enums and unions, every directive produces
exactly one diagnostic that names the derive name the entry point passes and
states the reason; that name is the offending directive itself except for
AddAssign, AddAssignInner, SubAssign and SubAssignInner, whose diagnostics
name Add, AddInner, Sub and SubInner respectively. (Multi-field tuples
instead get the diagnostic of C6, which names no directive.) -/
theorem C7_diagnostic_names_passed_directive (d : Directive) (name : String) :
    (run_directive d ⟨name, .struct .unit⟩ =
      .out [Frag.compileError ("Unit struct cannot derive " ++ passed_name d)]) ∧
    (run_directive d ⟨name, .enum⟩ =
      .out [Frag.compileError ("Cannot derive " ++ passed_name d ++ " for enum, expected struct.")]) ∧
    (run_directive d ⟨name, .union⟩ =
      .out [Frag.compileError ("Cannot derive " ++ passed_name d ++ " for union, expected struct.")]) ∧
    (passed_name d = directive_name d ∨
      (d = .AddAssign ∧ passed_name d = "Add") ∨
      (d = .AddAssignInner ∧ passed_name d = "AddInner") ∨
      (d = .SubAssign ∧ passed_name d = "Sub") ∨
      (d = .SubAssignInner ∧ passed_name d = "SubInner")) := by
  cases d <;> exact ⟨rfl, rfl, rfl, by decide⟩

/-- Witness for the amended C7 at the Mul directive on a struct named S. -/
theorem C7_diagnostic_names_passed_directive_witness :
    (run_directive .Mul ⟨"S", .struct .unit⟩ =
      .out [Frag.compileError ("Unit struct cannot derive " ++ passed_name .Mul)]) ∧
    (run_directive .Mul ⟨"S", .enum⟩ =
      .out [Frag.compileError ("Cannot derive " ++ passed_name .Mul ++ " for enum, expected struct.")]) ∧
    (run_directive .Mul ⟨"S", .union⟩ =
      .out [Frag.compileError ("Cannot derive " ++ passed_name .Mul ++ " for union, expected struct.")]) ∧
    (passed_name .Mul = directive_name .Mul ∨
      (Directive.Mul = .AddAssign ∧ passed_name .Mul = "Add") ∨
      (Directive.Mul = .AddAssignInner ∧ passed_name .Mul = "AddInner") ∨
      (Directive.Mul = .SubAssign ∧ passed_name .Mul = "Sub") ∨
      (Directive.Mul = .SubAssignInner ∧ passed_name .Mul = "SubInner")) :=
  C7_diagnostic_names_passed_directive .Mul "S"

/-- C8: on a valid single-field wrapper declaration, the output of the Id
(bundle) directive is the concatenation of the fragments produced by the
individual conversion-in, conversion-out, arithmetic (self and inner, value
and mutating, for add, sub, mul, div) and display directives on the same
declaration, in that order. -/
theorem C8_bundle_is_concatenation (name ty : String) :
    run_directive .Id ⟨name, .struct (.unnamed [ty])⟩ =
      .out (out_frags (run_directive .FromInner ⟨name, .struct (.unnamed [ty])⟩) ++
            out_frags (run_directive .IntoInner ⟨name, .struct (.unnamed [ty])⟩) ++
            out_frags (run_directive .Add ⟨name, .struct (.unnamed [ty])⟩) ++
            out_frags (run_directive .AddInner ⟨name, .struct (.unnamed [ty])⟩) ++
            out_frags (run_directive .AddAssign ⟨name, .struct (.unnamed [ty])⟩) ++
            out_frags (run_directive .AddAssignInner ⟨name, .struct (.unnamed [ty])⟩) ++
            out_frags (run_directive .Sub ⟨name, .struct (.unnamed [ty])⟩) ++
            out_frags (run_directive .SubInner ⟨name, .struct (.unnamed [ty])⟩) ++
            out_frags (run_directive .SubAssign ⟨name, .struct (.unnamed [ty])⟩) ++
            out_frags (run_directive .SubAssignInner ⟨name, .struct (.unnamed [ty])⟩) ++
            out_frags (run_directive .Mul ⟨name, .struct (.unnamed [ty])⟩) ++
            out_frags (run_directive .MulInner ⟨name, .struct (.unnamed [ty])⟩) ++
            out_frags (run_directive .MulAssign ⟨name, .struct (.unnamed [ty])⟩) ++
            out_frags (run_directive .MulAssignInner ⟨name, .struct (.unnamed [ty])⟩) ++
            out_frags (run_directive .Div ⟨name, .struct (.unnamed [ty])⟩) ++
            out_frags (run_directive .DivInner ⟨name, .struct (.unnamed [ty])⟩) ++
            out_frags (run_directive .DivAssign ⟨name, .struct (.unnamed [ty])⟩) ++
            out_frags (run_directive .DivAssignInner ⟨name, .struct (.unnamed [ty])⟩) ++
            out_frags (run_directive .Display ⟨name, .struct (.unnamed [ty])⟩)) :=
  rfl

/-- Witness for C8 on the declaration Id(usize). -/
theorem C8_bundle_is_concatenation_witness :
    run_directive .Id ⟨"Id", .struct (.unnamed ["usize"])⟩ =
      .out (out_frags (run_directive .FromInner ⟨"Id", .struct (.unnamed ["usize"])⟩) ++
            out_frags (run_directive .IntoInner ⟨"Id", .struct (.unnamed ["usize"])⟩) ++
            out_frags (run_directive .Add ⟨"Id", .struct (.unnamed ["usize"])⟩) ++
            out_frags (run_directive .AddInner ⟨"Id", .struct (.unnamed ["usize"])⟩) ++
            out_frags (run_directive .AddAssign ⟨"Id", .struct (.unnamed ["usize"])⟩) ++
            out_frags (run_directive .AddAssignInner ⟨"Id", .struct (.unnamed ["usize"])⟩) ++
            out_frags (run_directive .Sub ⟨"Id", .struct (.unnamed ["usize"])⟩) ++
            out_frags (run_directive .SubInner ⟨"Id", .struct (.unnamed ["usize"])⟩) ++
            out_frags (run_directive .SubAssign ⟨"Id", .struct (.unnamed ["usize"])⟩) ++
            out_frags (run_directive .SubAssignInner ⟨"Id", .struct (.unnamed ["usize"])⟩) ++
            out_frags (run_directive .Mul ⟨"Id", .struct (.unnamed ["usize"])⟩) ++
            out_frags (run_directive .MulInner ⟨"Id", .struct (.unnamed ["usize"])⟩) ++
            out_frags (run_directive .MulAssign ⟨"Id", .struct (.unnamed ["usize"])⟩) ++
            out_frags (run_directive .MulAssignInner ⟨"Id", .struct (.unnamed ["usize"])⟩) ++
            out_frags (run_directive .Div ⟨"Id", .struct (.unnamed ["usize"])⟩) ++
            out_frags (run_directive .DivInner ⟨"Id", .struct (.unnamed ["usize"])⟩) ++
            out_frags (run_directive .DivAssign ⟨"Id", .struct (.unnamed ["usize"])⟩) ++
            out_frags (run_directive .DivAssignInner ⟨"Id", .struct (.unnamed ["usize"])⟩) ++
            out_frags (run_directive .Display ⟨"Id", .struct (.unnamed ["usize"])⟩)) :=
  C8_bundle_is_concatenation "Id" "usize"

/-- C9: for the wrapper Id with inner value 12 under the bundle directive
(whose output on Id(usize) is the full list of generated impl fragments),
the generated operations satisfy Id(12) + Id(14) = Id(26) and
Id(12) - Id(12) = Id(0), the decimal rendering of Id(12) is "12", and the
alternate binary rendering of Id(12) is "0b1100". -/
theorem C9_example_values :
    Generated.add (Wrapper.mk (12 : Nat)) (Wrapper.mk 14) = Wrapper.mk 26 ∧
    Generated.sub (Wrapper.mk (12 : Nat)) (Wrapper.mk 12) = Wrapper.mk 0 ∧
    Generated.displayFmt (Wrapper.mk 12) = "12" ∧
    Generated.binaryFmt true (Wrapper.mk 12) = "0b1100" ∧
    run_directive .Id ⟨"Id", .struct (.unnamed ["usize"])⟩ =
      .out [Frag.implFromInner "Id" "usize", Frag.implIntoInner "Id" "usize",
            Frag.implAddSelf "Id", Frag.implAddInner "Id" "usize",
            Frag.implAddAssignSelf "Id", Frag.implAddAssignInner "Id" "usize",
            Frag.implSubSelf "Id", Frag.implSubInner "Id" "usize",
            Frag.implSubAssignSelf "Id", Frag.implSubAssignInner "Id" "usize",
            Frag.implMulSelf "Id", Frag.implMulInner "Id" "usize",
            Frag.implMulAssignSelf "Id", Frag.implMulAssignInner "Id" "usize",
            Frag.implDivSelf "Id", Frag.implDivInner "Id" "usize",
            Frag.implDivAssignSelf "Id", Frag.implDivAssignInner "Id" "usize",
            Frag.implDisplay "Id"] :=
  ⟨rfl, rfl, rfl, rfl, rfl⟩

/-- C10: on a unit struct, enum or union, the Id (bundle) directive and the
Convert (two-fragment conversion) directive each emit exactly one diagnostic:
the one of the first failing sub-generator, with no later fragment or
diagnostic in the output. -/
theorem C10_first_error_only (name : String) :
    (run_directive .Id ⟨name, .struct .unit⟩ =
      .out [Frag.compileError "Unit struct cannot derive Id"]) ∧
    (run_directive .Id ⟨name, .enum⟩ =
      .out [Frag.compileError "Cannot derive Id for enum, expected struct."]) ∧
    (run_directive .Id ⟨name, .union⟩ =
      .out [Frag.compileError "Cannot derive Id for union, expected struct."]) ∧
    (run_directive .Convert ⟨name, .struct .unit⟩ =
      .out [Frag.compileError "Unit struct cannot derive Convert"]) ∧
    (run_directive .Convert ⟨name, .enum⟩ =
      .out [Frag.compileError "Cannot derive Convert for enum, expected struct."]) ∧
    (run_directive .Convert ⟨name, .union⟩ =
      .out [Frag.compileError "Cannot derive Convert for union, expected struct."]) :=
  ⟨rfl, rfl, rfl, rfl, rfl, rfl⟩

/-- Witness for C10 on a declaration named S. -/
theorem C10_first_error_only_witness :
    (run_directive .Id ⟨"S", .struct .unit⟩ =
      .out [Frag.compileError "Unit struct cannot derive Id"]) ∧
    (run_directive .Id ⟨"S", .enum⟩ =
      .out [Frag.compileError "Cannot derive Id for enum, expected struct."]) ∧
    (run_directive .Id ⟨"S", .union⟩ =
      .out [Frag.compileError "Cannot derive Id for union, expected struct."]) ∧
    (run_directive .Convert ⟨"S", .struct .unit⟩ =
      .out [Frag.compileError "Unit struct cannot derive Convert"]) ∧
    (run_directive .Convert ⟨"S", .enum⟩ =
      .out [Frag.compileError "Cannot derive Convert for enum, expected struct."]) ∧
    (run_directive .Convert ⟨"S", .union⟩ =
      .out [Frag.compileError "Cannot derive Convert for union, expected struct."]) :=
  C10_first_error_only "S"
